import Mathlib

/-!
Shallow embedding of `src/main.rs` of the spores CLI (a Spotify client).

Remote endpoints (the rspotify client methods) are modelled by a `Remote`
environment of `Except`-valued responses.  Each `cmd_*` function returns the
list of remote calls it performs together with an `Outcome`: `panic` (an
`unwrap` failure — the process terminates with a non-zero status) or
`output j` (the JSON object printed to stdout; the process then exits zero).
-/

namespace Spores

/-- Generic JSON values, the target of the serde_json `json!` blocks. -/
inductive Json where
  | null : Json
  | bool (b : Bool) : Json
  | num (n : Int) : Json
  | str (s : String) : Json
  | arr (xs : List Json) : Json
  | obj (fields : List (String × Json)) : Json

/-- Lookup of a key in a JSON object's field list (first match). -/
def lookupField : List (String × Json) → String → Option Json
  | [], _ => none
  | (k', v) :: rest, k => if k' = k then some v else lookupField rest k

/-- Field access on a JSON object; `none` on non-objects and missing keys. -/
def Json.getField : Json → String → Option Json
  | .obj fields, k => lookupField fields k
  | _, _ => none

/-- Serialization of an optional string: `null` or a JSON string. -/
def optStr : Option String → Json
  | none => .null
  | some s => .str s

/-- Serialization of an optional number. -/
def optNum : Option Int → Json
  | none => .null
  | some n => .num n

-- ---------------------------------------------------------------------------
-- Data model (the rspotify model types, restricted to the fields main.rs uses)
-- ---------------------------------------------------------------------------

structure SimplifiedArtist where
  name : String

structure SimplifiedAlbum where
  id : Option String
  name : String
  artists : List SimplifiedArtist
  release_date : Option String

structure FullTrack where
  id : Option String
  name : String
  artists : List SimplifiedArtist
  album : SimplifiedAlbum
  duration_ms : Int

structure Followers where
  total : Nat

structure FullArtist where
  id : String
  name : String
  genres : List String
  followers : Followers
  popularity : Nat

structure PublicUser where
  display_name : Option String

structure PlaylistTracksRef where
  total : Nat

structure SimplifiedPlaylist where
  id : String
  name : String
  tracks : PlaylistTracksRef
  public : Option Bool
  owner : PublicUser
  external_urls : List (String × String)

/-- A paging object; only the fields main.rs reads (`items`, `total`, `next`). -/
structure Page (α : Type) where
  items : List α
  total : Nat
  next : Option String

structure SimplifiedShow where
  name : String

structure FullEpisode where
  id : String
  name : String
  show_ref : SimplifiedShow
  duration_ms : Int

inductive PlayableItem where
  | track (t : FullTrack)
  | episode (e : FullEpisode)
  /-- the `_` arm of the source's match (rspotify's enum is non-exhaustive). -/
  | unknown

structure PlaylistItem where
  track : Option PlayableItem

structure FullPlaylist where
  id : String
  name : String
  owner : PublicUser
  public : Option Bool
  collaborative : Bool
  followers : Followers
  description : Option String
  external_urls : List (String × String)
  tracks : Page PlaylistItem

structure PrivateUser where
  id : String

structure PlaylistResult where
  snapshot_id : String

inductive SearchType where
  | track | album | artist | playlist
deriving DecidableEq

/-- Search responses; `shows`/`episodes` are the variants main.rs's `_` arm
catches (their payload is never read, so it is omitted). -/
inductive SearchResult where
  | tracks (page : Page FullTrack)
  | albums (page : Page SimplifiedAlbum)
  | artists (page : Page FullArtist)
  | playlists (page : Page SimplifiedPlaylist)
  | shows
  | episodes

inductive ItemType where
  | track | album | artist | playlist
deriving DecidableEq

def ItemType.to_search_type : ItemType → SearchType
  | .track => .track
  | .album => .album
  | .artist => .artist
  | .playlist => .playlist

-- ---------------------------------------------------------------------------
-- Id parsing (model of the external rspotify `Id` trait used via
-- `from_id_or_uri` / `from_id`; not code of this repository)
-- ---------------------------------------------------------------------------

/-- An id is valid when non-empty and ASCII alphanumeric. -/
def id_is_valid (s : String) : Bool :=
  !s.toList.isEmpty && s.toList.all Char.isAlphanum

def from_id (s : String) : Option String :=
  if id_is_valid s then some s else none

/-- Split a character list at the last occurrence of `c`. -/
def rsplit_once_chars (l : List Char) (c : Char) :
    Option (List Char × List Char) :=
  let suffix := (l.reverse.takeWhile (fun ch => ch ≠ c)).reverse
  if suffix.length = l.length then none
  else some (l.take (l.length - suffix.length - 1), suffix)

/-- Does the string begin with `spotify` followed by a separator? (When not,
`from_id_or_uri` falls back to plain id parsing.) -/
def uri_prefix_ok (uri : String) : Bool :=
  if uri.toList.take 7 = "spotify".toList then
    match uri.toList.drop 7 with
    | sep :: _ => (sep == ':') || (sep == '/')
    | [] => false
  else false

/-- Parse a `spotify:<type>:<id>` (or `/`-separated) URI of item type `ty`. -/
def from_uri (ty : String) (uri : String) : Option String :=
  if uri.toList.take 7 = "spotify".toList then
    match uri.toList.drop 7 with
    | sep :: rest =>
      if sep = ':' ∨ sep = '/' then
        match rsplit_once_chars rest sep with
        | some (tpe, id) =>
          if tpe = ty.toList ∧ id_is_valid (String.mk id) then
            some (String.mk id)
          else none
        | none => none
      else none
    | [] => none
  else none

def from_id_or_uri (ty : String) (s : String) : Option String :=
  if uri_prefix_ok s then from_uri ty s else from_id s

/-- `.iter().map(|x| f(x).unwrap()).collect()`: parse each element in order,
the whole collection failing at the first failing element. -/
def mapOrNone {α β : Type} (f : α → Option β) : List α → Option (List β)
  | [] => some []
  | a :: l =>
    match f a with
    | none => none
    | some b =>
      match mapOrNone f l with
      | none => none
      | some bs => some (b :: bs)

-- ---------------------------------------------------------------------------
-- Remote environment and observable behaviour
-- ---------------------------------------------------------------------------

/-- Responses the remote API gives to each endpoint main.rs invokes.
`current_user_playlists_manual` is indexed by the offset argument;
`playlist_follow` by the playlist id. -/
structure Remote where
  search : Except Unit SearchResult
  current_user_playlists_manual : Nat → Nat → Except Unit (Page SimplifiedPlaylist)
  current_user : Except Unit PrivateUser
  user_playlist_create : Except Unit FullPlaylist
  playlist : Except Unit FullPlaylist
  playlist_add_items : Except Unit PlaylistResult
  current_user_saved_tracks_add : Except Unit Unit
  current_user_saved_albums_add : Except Unit Unit
  playlist_follow : String → Except Unit Unit

/-- One remote call, with the arguments main.rs passes. -/
inductive Call where
  | search (query : String) (ty : SearchType) (limit : Nat)
  | current_user_playlists_manual (limit offset : Nat)
  | current_user
  | user_playlist_create (user name : String)
  | playlist (id : String)
  | playlist_add_items (id : String) (count : Nat)
  | current_user_saved_tracks_add
  | current_user_saved_albums_add
  | playlist_follow (id : String)
deriving DecidableEq

/-- Observable result of a command: a panic (non-zero exit, nothing printed)
or a printed JSON object followed by a zero exit. -/
inductive Outcome where
  | panic
  | output (j : Json)

-- ---------------------------------------------------------------------------
-- cmd_search
-- ---------------------------------------------------------------------------

def renderSearchTrack (track : FullTrack) : Json :=
  .obj [("id", optStr track.id),
        ("name", .str track.name),
        ("artists", .arr (track.artists.map (fun a => .str a.name))),
        ("album", .str track.album.name),
        ("duration_ms", .num track.duration_ms)]

def renderSearchAlbum (album : SimplifiedAlbum) : Json :=
  .obj [("id", optStr album.id),
        ("name", .str album.name),
        ("artists", .arr (album.artists.map (fun a => .str a.name))),
        ("release_date", optStr album.release_date)]

def renderSearchArtist (artist : FullArtist) : Json :=
  .obj [("id", .str artist.id),
        ("name", .str artist.name),
        ("genres", .arr (artist.genres.map Json.str)),
        ("followers", .num artist.followers.total),
        ("popularity", .num artist.popularity)]

def renderSearchPlaylist (playlist : SimplifiedPlaylist) : Json :=
  .obj [("id", .str playlist.id),
        ("name", .str playlist.name),
        ("tracks", .num playlist.tracks.total),
        ("owner", .str (playlist.owner.display_name.getD "unknown")),
        ("url", optStr (playlist.external_urls.lookup "spotify"))]

def searchOutput (query ty : String) (total : Nat) (items : List Json) : Json :=
  .obj [("query", .str query),
        ("type", .str ty),
        ("total", .num total),
        ("items", .arr items)]

def cmd_search (remote : Remote) (query : String) (item_type : ItemType)
    (limit : Nat) : List Call × Outcome :=
  let search_type := item_type.to_search_type
  let trace := [Call.search query search_type limit]
  match remote.search with
  | .error _ => (trace, .panic)
  | .ok result =>
    match result with
    | .tracks page =>
      (trace, .output (searchOutput query "track" page.total
        (page.items.map renderSearchTrack)))
    | .albums page =>
      (trace, .output (searchOutput query "album" page.total
        (page.items.map renderSearchAlbum)))
    | .artists page =>
      (trace, .output (searchOutput query "artist" page.total
        (page.items.map renderSearchArtist)))
    | .playlists page =>
      (trace, .output (searchOutput query "playlist" page.total
        (page.items.map renderSearchPlaylist)))
    | _ => (trace, .output (.obj [("error", .str "unsupported search type")]))

-- ---------------------------------------------------------------------------
-- cmd_playlist_list
-- ---------------------------------------------------------------------------

def renderListPlaylist (playlist : SimplifiedPlaylist) : Json :=
  .obj [("id", .str playlist.id),
        ("name", .str playlist.name),
        ("tracks", .num playlist.tracks.total),
        ("public", .bool (playlist.public.getD false)),
        ("owner", .str (playlist.owner.display_name.getD "unknown")),
        ("url", optStr (playlist.external_urls.lookup "spotify"))]

def playlistListOutput (playlists : List Json) : Json :=
  .obj [("total", .num playlists.length),
        ("playlists", .arr playlists)]

/-- The `loop` body of `cmd_playlist_list`, fuelled; `none` means the fuel ran
out before a page with `next == None` (the loop would still be running). -/
def cmd_playlist_list_go (remote : Remote) :
    Nat → Nat → List Json → List Call → Option (List Call × Outcome)
  | 0, _, _, _ => none
  | fuel + 1, offset, acc, trace =>
    let trace' := trace ++ [Call.current_user_playlists_manual 50 offset]
    match remote.current_user_playlists_manual 50 offset with
    | .error _ => some (trace', .panic)
    | .ok page =>
      let acc' := acc ++ page.items.map renderListPlaylist
      if page.next.isNone then some (trace', .output (playlistListOutput acc'))
      else cmd_playlist_list_go remote fuel (offset + 50) acc' trace'

def cmd_playlist_list (remote : Remote) (fuel : Nat) :
    Option (List Call × Outcome) :=
  cmd_playlist_list_go remote fuel 0 [] []

-- ---------------------------------------------------------------------------
-- cmd_playlist_create
-- ---------------------------------------------------------------------------

def createOutput (playlist : FullPlaylist) : Json :=
  .obj [("id", .str playlist.id),
        ("name", .str playlist.name),
        ("public", .bool (playlist.public.getD false)),
        ("description", optStr playlist.description),
        ("url", optStr (playlist.external_urls.lookup "spotify"))]

def cmd_playlist_create (remote : Remote) (name : String) (_publicFlag : Bool)
    (_description : Option String) : List Call × Outcome :=
  match remote.current_user with
  | .error _ => ([Call.current_user], .panic)
  | .ok user =>
    match from_id user.id with
    | none => ([Call.current_user], .panic)
    | some user_id =>
      let trace := [Call.current_user, Call.user_playlist_create user_id name]
      match remote.user_playlist_create with
      | .error _ => (trace, .panic)
      | .ok playlist => (trace, .output (createOutput playlist))

-- ---------------------------------------------------------------------------
-- cmd_playlist_info
-- ---------------------------------------------------------------------------

def renderPlayable : PlayableItem → Json
  | .track track =>
    .obj [("type", .str "track"),
          ("id", optStr track.id),
          ("name", .str track.name),
          ("artists", .arr (track.artists.map (fun a => .str a.name))),
          ("album", .str track.album.name),
          ("duration_ms", .num track.duration_ms)]
  | .episode episode =>
    .obj [("type", .str "episode"),
          ("id", .str episode.id),
          ("name", .str episode.name),
          ("show", .str episode.show_ref.name),
          ("duration_ms", .num episode.duration_ms)]
  | .unknown => .obj [("type", .str "unknown")]

def infoOutput (playlist : FullPlaylist) (tracks : List Json) : Json :=
  .obj [("id", .str playlist.id),
        ("name", .str playlist.name),
        ("owner", .str (playlist.owner.display_name.getD "unknown")),
        ("public", .bool (playlist.public.getD false)),
        ("collaborative", .bool playlist.collaborative),
        ("followers", .num playlist.followers.total),
        ("description", optStr playlist.description),
        ("url", optStr (playlist.external_urls.lookup "spotify")),
        ("total_tracks", .num playlist.tracks.total),
        ("tracks", .arr tracks)]

def cmd_playlist_info (remote : Remote) (playlist_id_str : String) :
    List Call × Outcome :=
  match from_id_or_uri "playlist" playlist_id_str with
  | none => ([], .panic)
  | some playlist_id =>
    match remote.playlist with
    | .error _ => ([Call.playlist playlist_id], .panic)
    | .ok playlist =>
      let tracks :=
        playlist.tracks.items.filterMap (fun item => item.track.map renderPlayable)
      ([Call.playlist playlist_id], .output (infoOutput playlist tracks))

-- ---------------------------------------------------------------------------
-- cmd_playlist_add
-- ---------------------------------------------------------------------------

def addOutput (playlist_id_str : String) (added : Nat) (snapshot : String) : Json :=
  .obj [("playlist", .str playlist_id_str),
        ("added", .num added),
        ("snapshot_id", .str snapshot)]

def cmd_playlist_add (remote : Remote) (playlist_id_str : String)
    (track_strs : List String) : List Call × Outcome :=
  match from_id_or_uri "playlist" playlist_id_str with
  | none => ([], .panic)
  | some playlist_id =>
    match mapOrNone (from_id_or_uri "track") track_strs with
    | none => ([], .panic)
    | some _track_ids =>
      let trace := [Call.playlist_add_items playlist_id track_strs.length]
      match remote.playlist_add_items with
      | .error _ => (trace, .panic)
      | .ok result =>
        (trace, .output (addOutput playlist_id_str track_strs.length
          result.snapshot_id))

-- ---------------------------------------------------------------------------
-- cmd_save
-- ---------------------------------------------------------------------------

def saveOutput (ty : String) (ids : List String) : Json :=
  .obj [("type", .str ty),
        ("saved", .num ids.length),
        ("ids", .arr (ids.map Json.str))]

/-- The `for id in ids` loop of the playlist arm: parse then follow, each
unwrapped; returns the calls made and whether every step succeeded. -/
def save_follow_go (remote : Remote) : List String → List Call → List Call × Bool
  | [], trace => (trace, true)
  | id :: rest, trace =>
    match from_id_or_uri "playlist" id with
    | none => (trace, false)
    | some playlist_id =>
      match remote.playlist_follow playlist_id with
      | .error _ => (trace ++ [Call.playlist_follow playlist_id], false)
      | .ok _ => save_follow_go remote rest (trace ++ [Call.playlist_follow playlist_id])

def cmd_save (remote : Remote) (item_type : ItemType) (ids : List String) :
    List Call × Outcome :=
  match item_type with
  | .track =>
    match mapOrNone (from_id_or_uri "track") ids with
    | none => ([], .panic)
    | some _ =>
      match remote.current_user_saved_tracks_add with
      | .error _ => ([Call.current_user_saved_tracks_add], .panic)
      | .ok _ => ([Call.current_user_saved_tracks_add], .output (saveOutput "track" ids))
  | .album =>
    match mapOrNone (from_id_or_uri "album") ids with
    | none => ([], .panic)
    | some _ =>
      match remote.current_user_saved_albums_add with
      | .error _ => ([Call.current_user_saved_albums_add], .panic)
      | .ok _ => ([Call.current_user_saved_albums_add], .output (saveOutput "album" ids))
  | .playlist =>
    match save_follow_go remote ids [] with
    | (trace, true) => (trace, .output (saveOutput "playlist" ids))
    | (trace, false) => (trace, .panic)
  | .artist =>
    ([], .output (.obj [("error",
      .str "saving artists is not supported; use 'follow' instead")]))

-- ---------------------------------------------------------------------------
-- Configuration file (load_config / cmd_configure / authenticate)
-- ---------------------------------------------------------------------------

/-- The deserialized config.toml; `redirect_uri` is optional in the source. -/
structure AppConfig where
  client_id : String
  client_secret : String
  redirect_uri : Option String
deriving DecidableEq

/-- The template load_config writes when the file does not yet exist. -/
def configTemplate : String :=
  "# Spotify application credentials\n# Create an app at https://developer.spotify.com/dashboard\nclient_id = \"\"\nclient_secret = \"\"\n\n# Must match the redirect URI registered in your Spotify app.\n# Use 127.0.0.1 — Spotify rejects \"localhost\".\n# redirect_uri = \"http://127.0.0.1:8888/callback\"\n"

/-- The config.toml text cmd_configure renders from the chosen values. -/
def configToml (client_id client_secret redirect_uri : String) : String :=
  "# Spotify application credentials\n# Create an app at https://developer.spotify.com/dashboard\nclient_id = \"" ++ client_id ++ "\"\nclient_secret = \"" ++ client_secret ++ "\"\n\n# Must match the redirect URI registered in your Spotify app.\n# Use 127.0.0.1 — Spotify rejects \"localhost\".\nredirect_uri = \"" ++ redirect_uri ++ "\"\n"

inductive LoadResult where
  | createdTemplate
  | failed
  | loaded (config : AppConfig)
deriving DecidableEq

/-- State after load_config: the config file's content (`none` = absent), how
many times it was read, and how loading ended.  `createdTemplate` and
`failed` both terminate the process with a non-zero status. -/
structure LoadOut where
  fsAfter : Option String
  reads : Nat
  result : LoadResult
deriving DecidableEq

/-- load_config over the config file content, with the external toml
deserializer abstracted as `parse`. -/
def load_config (fs : Option String) (parse : String → Option AppConfig) :
    LoadOut :=
  match fs with
  | none => ⟨some configTemplate, 0, .createdTemplate⟩
  | some contents =>
    match parse contents with
    | none => ⟨some contents, 1, .failed⟩
    | some config =>
      if config.client_id.isEmpty || config.client_secret.isEmpty then
        ⟨some contents, 1, .failed⟩
      else ⟨some contents, 1, .loaded config⟩

/-- The redirect URI authenticate uses: the configured one, else the default. -/
def authenticateRedirectUri (app : AppConfig) : String :=
  app.redirect_uri.getD "http://127.0.0.1:8888/callback"

/-- prompt: trimmed stdin line if non-empty, else the default (or ""). -/
def promptResult (input : String) (dflt : Option String) : String :=
  let trimmed := input.trim
  if trimmed.isEmpty then dflt.getD "" else trimmed

/-- The three lines the user types at the configure wizard's prompts. -/
structure ConfigureInputs where
  id_input : String
  secret_input : String
  redirect_input : String

/-- cmd_configure's effect on the config file: (content after, reads made). -/
def cmd_configure (fs : Option String) (parse : String → Option AppConfig)
    (inp : ConfigureInputs) : Option String × Nat :=
  let reads := if fs.isSome then 1 else 0
  let existing : Option AppConfig := fs.bind parse
  let default_id := existing.bind
    (fun c => if c.client_id.isEmpty then none else some c.client_id)
  let default_secret := existing.bind
    (fun c => if c.client_secret.isEmpty then none else some c.client_secret)
  let default_redirect : Option String :=
    some ((existing.bind (fun c => c.redirect_uri)).getD
      "http://127.0.0.1:8888/callback")
  let client_id := promptResult inp.id_input default_id
  let client_secret := promptResult inp.secret_input default_secret
  let redirect_uri := promptResult inp.redirect_input default_redirect
  if client_id.isEmpty || client_secret.isEmpty then (fs, reads)
  else (some (configToml client_id client_secret redirect_uri), reads)

-- ---------------------------------------------------------------------------
-- CLI commands and main's use of the config file
-- ---------------------------------------------------------------------------

inductive PlaylistCommand where
  | list
  | create (name : String) (publicFlag : Bool) (description : Option String)
  | info (playlist : String)
  | add (playlist : String) (tracks : List String)
deriving DecidableEq

inductive Command where
  | search (query : String) (ty : ItemType) (limit : Nat)
  | playlist (pc : PlaylistCommand)
  | configure
  | save (ty : ItemType) (ids : List String)
deriving DecidableEq

/-- main's accesses to the config file: configure runs the wizard; every other
command reaches it only through authenticate → load_config.  Returns the
file content afterwards and the number of reads performed. -/
def config_file_access (cmd : Command) (fs : Option String)
    (parse : String → Option AppConfig) (inp : ConfigureInputs) :
    Option String × Nat :=
  match cmd with
  | .configure => cmd_configure fs parse inp
  | _ => ((load_config fs parse).fsAfter, (load_config fs parse).reads)

-- ---------------------------------------------------------------------------
-- Sample data (used by witnesses)
-- ---------------------------------------------------------------------------

/-- A concrete track. -/
def sampleTrack : FullTrack :=
  ⟨some "4iV5W9uYEdYUVa79Axb7Rh", "Song A", [⟨"Artist X"⟩],
   ⟨some "2up3OPMp9Tb4dAKM2erWXQ", "Album B", [⟨"Artist X"⟩], some "2020-01-01"⟩,
   215000⟩

/-- A remote that fails every call. -/
def failRemote : Remote :=
  ⟨.error (), fun _ _ => .error (), .error (), .error (), .error (), .error (),
   .error (), .error (), fun _ => .error ()⟩

/-- A remote whose search responds with a one-track page. -/
def tracksRemote : Remote :=
  ⟨.ok (.tracks ⟨[sampleTrack], 1, none⟩), fun _ _ => .error (), .error (),
   .error (), .error (), .error (), .error (), .error (), fun _ => .error ()⟩

/-- A concrete playlist summary. -/
def samplePlaylist : SimplifiedPlaylist :=
  ⟨"37i9dQZF1DXcBWIGoYBM5M", "My Mix", ⟨3⟩, some true, ⟨some "alice"⟩,
   [("spotify", "https://open.spotify.com/playlist/37i9dQZF1DXcBWIGoYBM5M")]⟩

/-- Playlist pages by offset: one playlist, a (deliberately different) remote
total of 7, and no successor page. -/
def pagesW : Nat → Page SimplifiedPlaylist :=
  fun _ => ⟨[samplePlaylist], 7, none⟩

/-- A remote serving `pagesW` for the playlist-list endpoint. -/
def listRemote : Remote :=
  ⟨.error (), fun _ off => .ok (pagesW off), .error (), .error (), .error (),
   .error (), .error (), .error (), fun _ => .error ()⟩

-- ---------------------------------------------------------------------------
-- Field-lookup lemmas
-- ---------------------------------------------------------------------------

lemma renderSearchTrack_name (t : FullTrack) :
    (renderSearchTrack t).getField "name" = some (.str t.name) := by
  simp [renderSearchTrack, Json.getField, lookupField]

lemma searchOutput_items (query ty : String) (total : Nat) (items : List Json) :
    (searchOutput query ty total items).getField "items" = some (.arr items) := by
  simp [searchOutput, Json.getField, lookupField]

lemma searchOutput_total (query ty : String) (total : Nat) (items : List Json) :
    (searchOutput query ty total items).getField "total" = some (.num total) := by
  simp [searchOutput, Json.getField, lookupField]

-- ---------------------------------------------------------------------------
-- C1
-- ---------------------------------------------------------------------------

/-- C1: when the track search response carries a Tracks page, cmd_search prints
a JSON object whose "items" array has exactly as many entries as the page, in
order, each with a "name" field equal to the corresponding track's name, and
whose "total" field is the page's total. -/
theorem cmd_search_tracks_items_match (remote : Remote) (query : String)
    (limit : Nat) (page : Page FullTrack)
    (h : remote.search = .ok (.tracks page)) :
    ∃ j l, (cmd_search remote query .track limit).2 = .output j ∧
      j.getField "items" = some (.arr l) ∧
      l.length = page.items.length ∧
      l.map (fun tj => tj.getField "name")
        = page.items.map (fun t => some (.str t.name)) ∧
      j.getField "total" = some (.num page.total) := by
  refine ⟨searchOutput query "track" page.total (page.items.map renderSearchTrack),
    page.items.map renderSearchTrack, ?_, ?_, ?_, ?_, ?_⟩
  · simp [cmd_search, h, ItemType.to_search_type]
  · exact searchOutput_items ..
  · simp
  · simp [List.map_map, Function.comp_def, renderSearchTrack_name]
  · exact searchOutput_total ..

/-- C1 witness: the theorem at a concrete one-track response. -/
theorem cmd_search_tracks_items_match_witness :
    ∃ j l,
      (cmd_search tracksRemote "hello" .track 20).2 = .output j ∧
      j.getField "items" = some (.arr l) ∧
      l.length = ([sampleTrack] : List FullTrack).length ∧
      l.map (fun tj => tj.getField "name")
        = ([sampleTrack] : List FullTrack).map (fun t => some (.str t.name)) ∧
      j.getField "total" = some (.num (1 : Nat)) :=
  cmd_search_tracks_items_match tracksRemote "hello" 20 ⟨[sampleTrack], 1, none⟩ rfl

-- ---------------------------------------------------------------------------
-- Pagination of cmd_playlist_list
-- ---------------------------------------------------------------------------

/-- The calls the list loop makes from offset `start` while `K` further pages
still have a successor. -/
def listTraceFrom (start : Nat) : Nat → List Call
  | 0 => [Call.current_user_playlists_manual 50 start]
  | K + 1 =>
    Call.current_user_playlists_manual 50 start :: listTraceFrom (start + 50) K

/-- The JSON entries the list loop accumulates from offset `start` over `K + 1`
pages. -/
def listItemsFrom (pages : Nat → Page SimplifiedPlaylist) (start : Nat) :
    Nat → List Json
  | 0 => (pages start).items.map renderListPlaylist
  | K + 1 =>
    (pages start).items.map renderListPlaylist ++ listItemsFrom pages (start + 50) K

lemma cmd_playlist_list_go_spec (remote : Remote)
    (pages : Nat → Page SimplifiedPlaylist)
    (hok : ∀ lim off, remote.current_user_playlists_manual lim off = .ok (pages off))
    (K : Nat) :
    ∀ (start : Nat) (acc : List Json) (trace : List Call),
      (∀ i, i < K → (pages (start + 50 * i)).next ≠ none) →
      (pages (start + 50 * K)).next = none →
      cmd_playlist_list_go remote (K + 1) start acc trace =
        some (trace ++ listTraceFrom start K,
          .output (playlistListOutput (acc ++ listItemsFrom pages start K))) := by
  induction K with
  | zero =>
    intro start acc trace _hlt hnone
    rw [Nat.mul_zero, Nat.add_zero] at hnone
    simp [cmd_playlist_list_go, hok, hnone, listTraceFrom, listItemsFrom]
  | succ K ih =>
    intro start acc trace hlt hnone
    have h0 : (pages (start + 50 * 0)).next ≠ none := hlt 0 (Nat.succ_pos K)
    rw [Nat.mul_zero, Nat.add_zero] at h0
    obtain ⟨nxt, hnxt⟩ := Option.ne_none_iff_exists'.mp h0
    have hlt' : ∀ i, i < K → (pages (start + 50 + 50 * i)).next ≠ none := by
      intro i hi
      have h := hlt (i + 1) (Nat.succ_lt_succ hi)
      have e : start + 50 * (i + 1) = start + 50 + 50 * i := by ring
      rwa [e] at h
    have hnone' : (pages (start + 50 + 50 * K)).next = none := by
      have e : start + 50 * (K + 1) = start + 50 + 50 * K := by ring
      rwa [e] at hnone
    have step : cmd_playlist_list_go remote (K + 1 + 1) start acc trace =
        cmd_playlist_list_go remote (K + 1) (start + 50)
          (acc ++ (pages start).items.map renderListPlaylist)
          (trace ++ [Call.current_user_playlists_manual 50 start]) := by
      simp [cmd_playlist_list_go, hok, hnxt]
    rw [step, ih (start + 50) _ _ hlt' hnone']
    simp [listTraceFrom, listItemsFrom, List.append_assoc]

lemma listTraceFrom_eq (K : Nat) :
    ∀ start, listTraceFrom start K =
      (List.range (K + 1)).map
        (fun i => Call.current_user_playlists_manual 50 (start + 50 * i)) := by
  induction K with
  | zero => intro start; simp [listTraceFrom, List.range_succ, List.range_zero]
  | succ K ih =>
    intro start
    rw [List.range_succ_eq_map]
    simp only [List.map_cons, List.map_map]
    rw [listTraceFrom, ih (start + 50)]
    refine congrArg₂ List.cons (by simp) ?_
    refine List.map_congr_left ?_
    intro i _
    simp only [Function.comp_apply]
    exact congrArg (Call.current_user_playlists_manual 50) (by omega)

lemma listItemsFrom_length (pages : Nat → Page SimplifiedPlaylist) (K : Nat) :
    ∀ start, (listItemsFrom pages start K).length =
      ((List.range (K + 1)).map
        (fun i => (pages (start + 50 * i)).items.length)).sum := by
  induction K with
  | zero => intro start; simp [listItemsFrom, List.range_succ, List.range_zero]
  | succ K ih =>
    intro start
    rw [List.range_succ_eq_map]
    simp only [List.map_cons, List.map_map, List.sum_cons]
    rw [listItemsFrom]
    simp only [List.length_append, List.length_map]
    rw [ih (start + 50)]
    refine congrArg₂ Nat.add (by simp) ?_
    refine congrArg List.sum ?_
    refine List.map_congr_left ?_
    intro i _
    simp only [Function.comp_apply]
    exact congrArg (fun o => (pages o).items.length) (by omega)

lemma playlistListOutput_total (items : List Json) :
    (playlistListOutput items).getField "total" = some (.num items.length) := by
  simp [playlistListOutput, Json.getField, lookupField]

lemma playlistListOutput_playlists (items : List Json) :
    (playlistListOutput items).getField "playlists" = some (.arr items) := by
  simp [playlistListOutput, Json.getField, lookupField]

-- ---------------------------------------------------------------------------
-- C5 and C8
-- ---------------------------------------------------------------------------

lemma cmd_playlist_list_run (remote : Remote)
    (pages : Nat → Page SimplifiedPlaylist)
    (hok : ∀ lim off, remote.current_user_playlists_manual lim off = .ok (pages off))
    (hex : ∃ k, (pages (50 * k)).next = none) :
    cmd_playlist_list remote (Nat.find hex + 1) =
      some ((List.range (Nat.find hex + 1)).map
          (fun i => Call.current_user_playlists_manual 50 (50 * i)),
        .output (playlistListOutput (listItemsFrom pages 0 (Nat.find hex)))) := by
  have hnone : (pages (0 + 50 * Nat.find hex)).next = none := by
    simpa using Nat.find_spec hex
  have hmin : ∀ i, i < Nat.find hex → (pages (0 + 50 * i)).next ≠ none := by
    intro i hi
    simpa using Nat.find_min hex hi
  have h := cmd_playlist_list_go_spec remote pages hok (Nat.find hex) 0 [] []
    hmin hnone
  rw [cmd_playlist_list, h, listTraceFrom_eq]
  simp

/-- C5: cmd_playlist_list requests pages of fixed size 50, advances the offset
by exactly 50 per iteration, and stops exactly at the first fetched page with
`next = none`: with responses `pages` and `K` the least index whose page has no
successor, fuel `K + 1` suffices (the loop terminates), the calls made are
exactly offsets 0, 50, …, 50·K at limit 50, and the accumulated entries are
printed. -/
theorem cmd_playlist_list_pagination (remote : Remote)
    (pages : Nat → Page SimplifiedPlaylist)
    (hok : ∀ lim off, remote.current_user_playlists_manual lim off = .ok (pages off))
    (hex : ∃ k, (pages (50 * k)).next = none) :
    cmd_playlist_list remote (Nat.find hex + 1) =
      some ((List.range (Nat.find hex + 1)).map
          (fun i => Call.current_user_playlists_manual 50 (50 * i)),
        .output (playlistListOutput (listItemsFrom pages 0 (Nat.find hex)))) :=
  cmd_playlist_list_run remote pages hok hex

/-- C5 witness: a response whose first page already has no successor; the loop
terminates after the single call at limit 50, offset 0. -/
theorem cmd_playlist_list_pagination_witness :
    cmd_playlist_list listRemote 1 =
      some ([Call.current_user_playlists_manual 50 0],
        .output (playlistListOutput (listItemsFrom pagesW 0 0))) := by
  have hex : ∃ k, (pagesW (50 * k)).next = none := ⟨0, rfl⟩
  have h0 : Nat.find hex = 0 := (Nat.find_eq_zero hex).mpr rfl
  have h := cmd_playlist_list_pagination listRemote pagesW (fun _ _ => rfl) hex
  rw [h0] at h
  simpa [List.range_succ] using h

/-- C8: the "total" field cmd_playlist_list prints equals the length of the
printed "playlists" array, the number of entries accumulated across all
fetched pages (it is computed from the local accumulator, not copied from any
page's `total`). -/
theorem cmd_playlist_list_total_is_local_count (remote : Remote)
    (pages : Nat → Page SimplifiedPlaylist)
    (hok : ∀ lim off, remote.current_user_playlists_manual lim off = .ok (pages off))
    (hex : ∃ k, (pages (50 * k)).next = none) :
    ∃ trace items,
      cmd_playlist_list remote (Nat.find hex + 1) =
        some (trace, .output (playlistListOutput items)) ∧
      (playlistListOutput items).getField "total" = some (.num items.length) ∧
      (playlistListOutput items).getField "playlists" = some (.arr items) ∧
      items.length = ((List.range (Nat.find hex + 1)).map
        (fun i => (pages (50 * i)).items.length)).sum := by
  refine ⟨_, listItemsFrom pages 0 (Nat.find hex),
    cmd_playlist_list_run remote pages hok hex,
    playlistListOutput_total _, playlistListOutput_playlists _, ?_⟩
  rw [listItemsFrom_length]
  simp

/-- C8 witness: one page with a single playlist but a remote-reported total of
7; the printed total is 1, the local count. -/
theorem cmd_playlist_list_total_is_local_count_witness :
    ∃ trace items,
      cmd_playlist_list listRemote 1 =
        some (trace, .output (playlistListOutput items)) ∧
      (playlistListOutput items).getField "total" = some (.num items.length) ∧
      (playlistListOutput items).getField "playlists" = some (.arr items) ∧
      items.length = 1 ∧ (pagesW 0).total = 7 := by
  have hex : ∃ k, (pagesW (50 * k)).next = none := ⟨0, rfl⟩
  have h0 : Nat.find hex = 0 := (Nat.find_eq_zero hex).mpr rfl
  obtain ⟨trace, items, h1, h2, h3, h4⟩ :=
    cmd_playlist_list_total_is_local_count listRemote pagesW (fun _ _ => rfl) hex
  rw [h0] at h1 h4
  refine ⟨trace, items, h1, h2, h3, ?_, rfl⟩
  rw [h4]
  simp [List.range_succ, pagesW]

-- ---------------------------------------------------------------------------
-- C9 and C10
-- ---------------------------------------------------------------------------

lemma mapOrNone_isSome {α β : Type} (f : α → Option β) :
    ∀ l : List α, (∀ a ∈ l, (f a).isSome) → ∃ l', mapOrNone f l = some l' := by
  intro l
  induction l with
  | nil => exact fun _ => ⟨[], rfl⟩
  | cons a l ih =>
    intro h
    obtain ⟨b, hb⟩ := Option.isSome_iff_exists.mp (h a (List.mem_cons_self a l))
    obtain ⟨l', hl'⟩ := ih (fun x hx => h x (List.mem_cons_of_mem a hx))
    exact ⟨b :: l', by simp [mapOrNone, hb, hl']⟩

/-- C9: when the playlist id and every track string parse, cmd_playlist_add
prints an "added" field equal to the length of the input track list, whatever
the remote response is — only its snapshot_id appears in the output. -/
theorem cmd_playlist_add_added_count (remote : Remote)
    (playlist_id_str : String) (track_strs : List String)
    (playlist_id : String) (result : PlaylistResult)
    (hp : from_id_or_uri "playlist" playlist_id_str = some playlist_id)
    (ht : ∀ t ∈ track_strs, (from_id_or_uri "track" t).isSome)
    (hr : remote.playlist_add_items = .ok result) :
    (cmd_playlist_add remote playlist_id_str track_strs).2 =
      .output (addOutput playlist_id_str track_strs.length result.snapshot_id) ∧
    (addOutput playlist_id_str track_strs.length result.snapshot_id).getField
      "added" = some (.num track_strs.length) := by
  obtain ⟨ids, hids⟩ := mapOrNone_isSome _ track_strs ht
  constructor
  · simp [cmd_playlist_add, hp, hids, hr]
  · simp [addOutput, Json.getField, lookupField]

/-- A remote that only answers playlist_add_items, with snapshot "snapAbc1". -/
def addRemote : Remote :=
  ⟨.error (), fun _ _ => .error (), .error (), .error (), .error (),
   .ok ⟨"snapAbc1"⟩, .error (), .error (), fun _ => .error ()⟩

/-- C9 witness: two parsing track strings (an id and a URI); "added" is 2. -/
theorem cmd_playlist_add_added_count_witness :
    (cmd_playlist_add addRemote "37i9dQZF1DXcBWIGoYBM5M"
      ["4iV5W9uYEdYUVa79Axb7Rh", "spotify:track:1301WleyT98MSxVHPZCA6M"]).2 =
      .output (addOutput "37i9dQZF1DXcBWIGoYBM5M" 2 "snapAbc1") ∧
    (addOutput "37i9dQZF1DXcBWIGoYBM5M" 2 "snapAbc1").getField "added"
      = some (.num 2) :=
  cmd_playlist_add_added_count addRemote "37i9dQZF1DXcBWIGoYBM5M"
    ["4iV5W9uYEdYUVa79Axb7Rh", "spotify:track:1301WleyT98MSxVHPZCA6M"]
    "37i9dQZF1DXcBWIGoYBM5M" ⟨"snapAbc1"⟩ (by decide) (by decide) rfl

lemma length_filterMap_track (f : PlayableItem → Json) :
    ∀ l : List PlaylistItem,
      (l.filterMap (fun item => item.track.map f)).length =
        (l.filter (fun item => item.track.isSome)).length := by
  intro l
  induction l with
  | nil => rfl
  | cons a l ih =>
    cases h : a.track <;>
      simp [List.filterMap_cons, List.filter_cons, h, ih]

lemma infoOutput_tracks (playlist : FullPlaylist) (tracks : List Json) :
    (infoOutput playlist tracks).getField "tracks" = some (.arr tracks) := by
  simp [infoOutput, Json.getField, lookupField]

lemma infoOutput_total_tracks (playlist : FullPlaylist) (tracks : List Json) :
    (infoOutput playlist tracks).getField "total_tracks"
      = some (.num playlist.tracks.total) := by
  simp [infoOutput, Json.getField, lookupField]

/-- A playlist with one item whose track is absent but a total of 1: the
rendered tracks array is shorter than total_tracks. -/
def droppedTrackPlaylist : FullPlaylist :=
  ⟨"5AbCdEf", "P", ⟨none⟩, none, false, ⟨0⟩, none, [], ⟨[⟨none⟩], 1, none⟩⟩

/-- C10: the "tracks" array cmd_playlist_info prints has exactly one entry, in
order, per playlist item whose track field is present (absent tracks are
dropped), so its length is the count of present tracks and can be strictly
below the printed "total_tracks". -/
theorem cmd_playlist_info_tracks_filter (remote : Remote)
    (playlist_id_str playlist_id : String) (playlist : FullPlaylist)
    (hp : from_id_or_uri "playlist" playlist_id_str = some playlist_id)
    (hr : remote.playlist = .ok playlist) :
    ∃ j, (cmd_playlist_info remote playlist_id_str).2 = .output j ∧
      j.getField "tracks" = some (.arr (playlist.tracks.items.filterMap
        (fun item => item.track.map renderPlayable))) ∧
      (playlist.tracks.items.filterMap
        (fun item => item.track.map renderPlayable)).length =
        (playlist.tracks.items.filter (fun item => item.track.isSome)).length ∧
      j.getField "total_tracks" = some (.num playlist.tracks.total) ∧
      ∃ q : FullPlaylist, (q.tracks.items.filterMap
        (fun item => item.track.map renderPlayable)).length < q.tracks.total := by
  refine ⟨infoOutput playlist (playlist.tracks.items.filterMap
      (fun item => item.track.map renderPlayable)), ?_,
    infoOutput_tracks .., length_filterMap_track _ _,
    infoOutput_total_tracks .., droppedTrackPlaylist, by decide⟩
  simp [cmd_playlist_info, hp, hr]

/-- A remote answering the playlist endpoint with a two-item playlist, one
item's track present and one absent. -/
def infoRemote : Remote :=
  ⟨.error (), fun _ _ => .error (), .error (), .error (),
   .ok ⟨"37i9dQZF1DXcBWIGoYBM5M", "My Mix", ⟨some "alice"⟩, some true, false,
     ⟨12⟩, some "desc", [], ⟨[⟨some (.track sampleTrack)⟩, ⟨none⟩], 2, none⟩⟩,
   .error (), .error (), .error (), fun _ => .error ()⟩

/-- C10 witness: the theorem at the two-item playlist with one absent track. -/
theorem cmd_playlist_info_tracks_filter_witness :
    ∃ j, (cmd_playlist_info infoRemote "37i9dQZF1DXcBWIGoYBM5M").2 = .output j ∧
      j.getField "tracks" = some (.arr
        (([⟨some (.track sampleTrack)⟩, ⟨none⟩] : List PlaylistItem).filterMap
          (fun item => item.track.map renderPlayable))) ∧
      (([⟨some (.track sampleTrack)⟩, ⟨none⟩] : List PlaylistItem).filterMap
        (fun item => item.track.map renderPlayable)).length =
        (([⟨some (.track sampleTrack)⟩, ⟨none⟩] : List PlaylistItem).filter
          (fun item => item.track.isSome)).length ∧
      j.getField "total_tracks" = some (.num (2 : Nat)) ∧
      ∃ q : FullPlaylist, (q.tracks.items.filterMap
        (fun item => item.track.map renderPlayable)).length < q.tracks.total :=
  cmd_playlist_info_tracks_filter infoRemote "37i9dQZF1DXcBWIGoYBM5M"
    "37i9dQZF1DXcBWIGoYBM5M"
    ⟨"37i9dQZF1DXcBWIGoYBM5M", "My Mix", ⟨some "alice"⟩, some true, false,
     ⟨12⟩, some "desc", [], ⟨[⟨some (.track sampleTrack)⟩, ⟨none⟩], 2, none⟩⟩
    (by decide) rfl

-- ---------------------------------------------------------------------------
-- C4
-- ---------------------------------------------------------------------------

/-- A toml deserializer result with no redirect_uri set. -/
def parseNoRedirect : String → Option AppConfig :=
  fun _ => some ⟨"abc", "def", none⟩

/-- C4 counterexample: a configuration with client id and secret but no
redirect URI loads successfully, so a successfully loaded configuration need
not supply a redirect URI (the field is optional). -/
theorem load_config_without_redirect_uri :
    (load_config (some "client_id = \"abc\"\nclient_secret = \"def\"\n")
      parseNoRedirect).result = .loaded ⟨"abc", "def", none⟩ ∧
    (⟨"abc", "def", none⟩ : AppConfig).redirect_uri = none := by
  constructor <;> rfl

/-- C4 amended: a valid configuration holds two required string fields (client
id and client secret, checked non-empty) and an optional redirect URI;
authenticate uses the configured redirect URI when present and the default
"http://127.0.0.1:8888/callback" when absent. -/
theorem load_config_loaded_fields (fs : Option String)
    (parse : String → Option AppConfig) (config : AppConfig)
    (h : (load_config fs parse).result = .loaded config) :
    config.client_id.isEmpty = false ∧ config.client_secret.isEmpty = false ∧
    (∀ u, config.redirect_uri = some u → authenticateRedirectUri config = u) ∧
    (config.redirect_uri = none →
      authenticateRedirectUri config = "http://127.0.0.1:8888/callback") := by
  rcases fs with _ | contents
  · simp [load_config] at h
  · rcases hp : parse contents with _ | cfg
    · simp [load_config, hp] at h
    · by_cases hempty : (cfg.client_id.isEmpty || cfg.client_secret.isEmpty) = true
      · simp [load_config, hp, hempty] at h
      · have hcfg : cfg = config := by
          simpa [load_config, hp, hempty] using h
        subst hcfg
        simp only [Bool.or_eq_true, not_or, Bool.not_eq_true] at hempty
        refine ⟨hempty.1, hempty.2, ?_, ?_⟩
        · intro u hu
          simp [authenticateRedirectUri, hu]
        · intro hn
          simp [authenticateRedirectUri, hn]

/-- C4 amended witness: the redirect-less configuration loads and authenticate
falls back to the default redirect URI. -/
theorem load_config_loaded_fields_witness :
    (⟨"abc", "def", none⟩ : AppConfig).client_id.isEmpty = false ∧
    (⟨"abc", "def", none⟩ : AppConfig).client_secret.isEmpty = false ∧
    authenticateRedirectUri ⟨"abc", "def", none⟩
      = "http://127.0.0.1:8888/callback" := by
  obtain ⟨h1, h2, _h3, h4⟩ := load_config_loaded_fields (some "x")
    parseNoRedirect ⟨"abc", "def", none⟩ rfl
  exact ⟨h1, h2, h4 rfl⟩

-- ---------------------------------------------------------------------------
-- C6
-- ---------------------------------------------------------------------------

lemma load_config_fsAfter (contents : String)
    (parse : String → Option AppConfig) :
    (load_config (some contents) parse).fsAfter = some contents := by
  rcases h : parse contents with _ | cfg
  · simp [load_config, h]
  · simp only [load_config, h]
    split <;> rfl

lemma load_config_reads_le (fs : Option String)
    (parse : String → Option AppConfig) :
    (load_config fs parse).reads ≤ 1 := by
  rcases fs with _ | contents
  · simp [load_config]
  · rcases h : parse contents with _ | cfg
    · simp [load_config, h]
    · simp only [load_config, h]
      split <;> simp

lemma cmd_configure_reads (fs : Option String)
    (parse : String → Option AppConfig) (inp : ConfigureInputs) :
    (cmd_configure fs parse inp).2 = if fs.isSome then 1 else 0 := by
  simp only [cmd_configure]
  split <;> rfl

lemma load_frame (fs : Option String) (parse : String → Option AppConfig) :
    (load_config fs parse).reads ≤ 1 ∧
    (∀ c, fs = some c → (load_config fs parse).fsAfter = some c) ∧
    (fs = none → (load_config fs parse).fsAfter = some configTemplate ∧
      (load_config fs parse).result = .createdTemplate) := by
  refine ⟨load_config_reads_le fs parse, ?_, ?_⟩
  · intro c hc
    subst hc
    exact load_config_fsAfter c parse
  · intro hn
    subst hn
    exact ⟨rfl, rfl⟩

/-- C6: every invocation reads the config file at most once; a command other
than configure never changes an existing config file, and when the file is
absent it only writes the template (and load_config ends the process there,
`createdTemplate`).  Only configure otherwise writes the file. -/
theorem config_file_frame (cmd : Command) (fs : Option String)
    (parse : String → Option AppConfig) (inp : ConfigureInputs) :
    (config_file_access cmd fs parse inp).2 ≤ 1 ∧
    (cmd ≠ .configure →
      (∀ c, fs = some c → (config_file_access cmd fs parse inp).1 = some c) ∧
      (fs = none →
        (config_file_access cmd fs parse inp).1 = some configTemplate ∧
        (load_config fs parse).result = .createdTemplate)) := by
  cases cmd with
  | configure =>
    refine ⟨?_, fun hne => absurd rfl hne⟩
    show (cmd_configure fs parse inp).2 ≤ 1
    rw [cmd_configure_reads]
    split <;> simp
  | search query ty limit =>
    exact ⟨(load_frame fs parse).1,
      fun _ => ⟨(load_frame fs parse).2.1, (load_frame fs parse).2.2⟩⟩
  | playlist pc =>
    exact ⟨(load_frame fs parse).1,
      fun _ => ⟨(load_frame fs parse).2.1, (load_frame fs parse).2.2⟩⟩
  | save ty ids =>
    exact ⟨(load_frame fs parse).1,
      fun _ => ⟨(load_frame fs parse).2.1, (load_frame fs parse).2.2⟩⟩

/-- C6 witness: listing playlists reads an existing config file once and
leaves it unchanged. -/
theorem config_file_frame_witness :
    (config_file_access (.playlist .list) (some "cfg") parseNoRedirect
      ⟨"", "", ""⟩).2 ≤ 1 ∧
    (config_file_access (.playlist .list) (some "cfg") parseNoRedirect
      ⟨"", "", ""⟩).1 = some "cfg" := by
  obtain ⟨h1, h2⟩ := config_file_frame (.playlist .list) (some "cfg")
    parseNoRedirect ⟨"", "", ""⟩
  exact ⟨h1, (h2 (by decide)).1 "cfg" rfl⟩

-- ---------------------------------------------------------------------------
-- C3
-- ---------------------------------------------------------------------------

lemma save_follow_go_ok (remote : Remote) :
    ∀ (ids : List String) (trace : List Call),
      (∀ t ∈ ids, ∃ pid, from_id_or_uri "playlist" t = some pid ∧
        remote.playlist_follow pid = .ok ()) →
      ∃ calls, save_follow_go remote ids trace = (trace ++ calls, true) ∧
        calls.length = ids.length := by
  intro ids
  induction ids with
  | nil => exact fun trace _ => ⟨[], by simp [save_follow_go], rfl⟩
  | cons a l ih =>
    intro trace h
    obtain ⟨pid, hpid, hfollow⟩ := h a (List.mem_cons_self a l)
    obtain ⟨calls, hgo, hlen⟩ := ih (trace ++ [Call.playlist_follow pid])
      (fun t ht => h t (List.mem_cons_of_mem a ht))
    refine ⟨Call.playlist_follow pid :: calls, ?_, by simp [hlen]⟩
    simp [save_follow_go, hpid, hfollow, hgo, List.append_assoc]

/-- A remote for a successful playlist-create run. -/
def createdPlaylist : FullPlaylist :=
  ⟨"3cEYpjA9oz9GiPac4AsH4n", "New List", ⟨some "alice42"⟩, some false, false,
   ⟨0⟩, some "d", [], ⟨[], 0, none⟩⟩

def createRemote : Remote :=
  ⟨.error (), fun _ _ => .error (), .ok ⟨"alice42"⟩, .ok createdPlaylist,
   .error (), .error (), .error (), .error (), fun _ => .error ()⟩

/-- C3 counterexample: a successful cmd_playlist_create invocation makes two
remote calls (current_user, then user_playlist_create), not exactly one. -/
theorem cmd_playlist_create_two_remote_calls :
    (cmd_playlist_create createRemote "New List" false (some "d")).1 =
      [Call.current_user, Call.user_playlist_create "alice42" "New List"] ∧
    (cmd_playlist_create createRemote "New List" false (some "d")).1.length ≠ 1 ∧
    (cmd_playlist_create createRemote "New List" false (some "d")).2 =
      .output (createOutput createdPlaylist) := by
  refine ⟨rfl, ?_, rfl⟩
  decide

/-- C3 amended: each operation validates its inputs into typed identifiers,
reshapes the typed response into generic JSON and prints it, but the remote
call counts are: search, show playlist and add tracks make exactly one call;
create playlist makes two (current user, then create); save makes one call for
tracks or albums and one per id for playlists; list playlists makes one call
per fetched page. -/
theorem remote_call_counts (remote : Remote)
    (query name playlist_id_str playlist_id : String) (item_type : ItemType)
    (limit : Nat) (publicFlag : Bool) (description : Option String)
    (r : SearchResult) (user : PrivateUser) (user_id : String)
    (track_strs ids : List String) (pages : Nat → Page SimplifiedPlaylist) :
    (remote.search = .ok r →
      (cmd_search remote query item_type limit).1.length = 1) ∧
    ((from_id_or_uri "playlist" playlist_id_str).isSome →
      (cmd_playlist_info remote playlist_id_str).1.length = 1) ∧
    (from_id_or_uri "playlist" playlist_id_str = some playlist_id →
      (∀ t ∈ track_strs, (from_id_or_uri "track" t).isSome) →
      (cmd_playlist_add remote playlist_id_str track_strs).1.length = 1) ∧
    (remote.current_user = .ok user → from_id user.id = some user_id →
      (cmd_playlist_create remote name publicFlag description).1 =
        [Call.current_user, Call.user_playlist_create user_id name] ∧
      (cmd_playlist_create remote name publicFlag description).1.length = 2) ∧
    ((∀ t ∈ ids, (from_id_or_uri "track" t).isSome) →
      (cmd_save remote .track ids).1.length = 1) ∧
    ((∀ t ∈ ids, (from_id_or_uri "album" t).isSome) →
      (cmd_save remote .album ids).1.length = 1) ∧
    ((∀ t ∈ ids, ∃ pid, from_id_or_uri "playlist" t = some pid ∧
        remote.playlist_follow pid = .ok ()) →
      (cmd_save remote .playlist ids).1.length = ids.length) ∧
    (∀ hex : ∃ k, (pages (50 * k)).next = none,
      (∀ lim off, remote.current_user_playlists_manual lim off = .ok (pages off)) →
      (cmd_playlist_list remote (Nat.find hex + 1)).map (fun res => res.1.length)
        = some (Nat.find hex + 1)) := by
  refine ⟨?_, ?_, ?_, ?_, ?_, ?_, ?_, ?_⟩
  · intro h
    rcases r <;> simp [cmd_search, h]
  · intro h
    obtain ⟨pid, hpid⟩ := Option.isSome_iff_exists.mp h
    rcases hr : remote.playlist with _ | p <;>
      simp [cmd_playlist_info, hpid, hr]
  · intro hp ht
    obtain ⟨l, hl⟩ := mapOrNone_isSome _ track_strs ht
    rcases hr : remote.playlist_add_items with _ | res <;>
      simp [cmd_playlist_add, hp, hl, hr]
  · intro hu hid
    rcases hr : remote.user_playlist_create with _ | pl <;>
      simp [cmd_playlist_create, hu, hid, hr]
  · intro ht
    obtain ⟨l, hl⟩ := mapOrNone_isSome _ ids ht
    rcases hr : remote.current_user_saved_tracks_add with _ | u <;>
      simp [cmd_save, hl, hr]
  · intro ht
    obtain ⟨l, hl⟩ := mapOrNone_isSome _ ids ht
    rcases hr : remote.current_user_saved_albums_add with _ | u <;>
      simp [cmd_save, hl, hr]
  · intro h
    obtain ⟨calls, hgo, hlen⟩ := save_follow_go_ok remote ids [] h
    simp [cmd_save, hgo, hlen]
  · intro hex hok
    rw [cmd_playlist_list_run remote pages hok hex]
    simp

/-- C3 amended witness: the create conjunct at the concrete remote; exactly
the two calls are made. -/
theorem remote_call_counts_witness :
    (cmd_playlist_create createRemote "New List" true none).1 =
      [Call.current_user, Call.user_playlist_create "alice42" "New List"] ∧
    (cmd_playlist_create createRemote "New List" true none).1.length = 2 := by
  have h := remote_call_counts createRemote "q" "New List" "p" "p" .track 20
    true none (.tracks ⟨[], 0, none⟩) ⟨"alice42"⟩ "alice42" [] []
    (fun _ => ⟨[], 0, none⟩)
  exact h.2.2.2.1 rfl (by decide)

-- ---------------------------------------------------------------------------
-- C2
-- ---------------------------------------------------------------------------

/-- C2 counterexample: saving artists performs no remote call and no save, yet
prints a JSON object (whose single field is an error message) and exits zero —
even when every remote endpoint would fail. -/
theorem cmd_save_artist_prints_error_and_exits_zero :
    cmd_save failRemote .artist ["0TnOYISbd1XYRBk9myaseg"] =
      ([], .output (.obj [("error",
        .str "saving artists is not supported; use 'follow' instead")])) ∧
    Json.getField (.obj [("error",
        .str "saving artists is not supported; use 'follow' instead")]) "error"
      = some (.str "saving artists is not supported; use 'follow' instead") := by
  exact ⟨rfl, rfl⟩

lemma cmd_playlist_list_go_panics (remote : Remote) :
    ∀ (k fuel start : Nat) (acc : List Json) (trace : List Call), k < fuel →
      (∀ i, i < k → ∃ p,
        remote.current_user_playlists_manual 50 (start + 50 * i) = .ok p ∧
        p.next ≠ none) →
      remote.current_user_playlists_manual 50 (start + 50 * k) = .error () →
      ∃ tr, cmd_playlist_list_go remote fuel start acc trace =
        some (tr, .panic) := by
  intro k
  induction k with
  | zero =>
    intro fuel start acc trace hk _ herr
    rcases fuel with _ | f
    · omega
    · rw [Nat.mul_zero, Nat.add_zero] at herr
      exact ⟨trace ++ [Call.current_user_playlists_manual 50 start],
        by simp [cmd_playlist_list_go, herr]⟩
  | succ k ih =>
    intro fuel start acc trace hk hpre herr
    rcases fuel with _ | f
    · omega
    · obtain ⟨p, hp, hnext⟩ := hpre 0 (Nat.succ_pos k)
      rw [Nat.mul_zero, Nat.add_zero] at hp
      obtain ⟨nxt, hnxt⟩ := Option.ne_none_iff_exists'.mp hnext
      have hpre' : ∀ i, i < k → ∃ q,
          remote.current_user_playlists_manual 50 (start + 50 + 50 * i) = .ok q ∧
          q.next ≠ none := by
        intro i hi
        have h := hpre (i + 1) (Nat.succ_lt_succ hi)
        have e : start + 50 * (i + 1) = start + 50 + 50 * i := by ring
        rwa [e] at h
      have herr' : remote.current_user_playlists_manual 50 (start + 50 + 50 * k)
          = .error () := by
        have e : start + 50 * (k + 1) = start + 50 + 50 * k := by ring
        rwa [e] at herr
      obtain ⟨tr, htr⟩ := ih f (start + 50)
        (acc ++ p.items.map renderListPlaylist)
        (trace ++ [Call.current_user_playlists_manual 50 start])
        (by omega) hpre' herr'
      refine ⟨tr, ?_⟩
      have step : cmd_playlist_list_go remote (f + 1) start acc trace =
          cmd_playlist_list_go remote f (start + 50)
            (acc ++ p.items.map renderListPlaylist)
            (trace ++ [Call.current_user_playlists_manual 50 start]) := by
        simp [cmd_playlist_list_go, hp, hnxt]
      rw [step, htr]

lemma save_follow_go_fails (remote : Remote) :
    ∀ (pre : List String) (t : String) (rest : List String) (trace : List Call),
      (∀ s ∈ pre, ∃ pid, from_id_or_uri "playlist" s = some pid ∧
        remote.playlist_follow pid = .ok ()) →
      (from_id_or_uri "playlist" t = none ∨
        ∃ pid, from_id_or_uri "playlist" t = some pid ∧
          remote.playlist_follow pid = .error ()) →
      ∃ tr, save_follow_go remote (pre ++ t :: rest) trace = (tr, false) := by
  intro pre
  induction pre with
  | nil =>
    intro t rest trace _ hfail
    rcases hfail with hnone | ⟨pid, hpid, herr⟩
    · exact ⟨trace, by simp [save_follow_go, hnone]⟩
    · exact ⟨trace ++ [Call.playlist_follow pid],
        by simp [save_follow_go, hpid, herr]⟩
  | cons a pre ih =>
    intro t rest trace hpre hfail
    obtain ⟨pid, hpid, hok⟩ := hpre a (List.mem_cons_self a pre)
    obtain ⟨tr, htr⟩ := ih t rest (trace ++ [Call.playlist_follow pid])
      (fun s hs => hpre s (List.mem_cons_of_mem a hs)) hfail
    exact ⟨tr, by simp [save_follow_go, hpid, hok, htr]⟩

/-- C2 amended: for every subcommand other than configure, any remote-call or
parse failure makes the process panic (non-zero exit, nothing printed, no
retry, no partial recovery) — at each unwrap point of search, playlist list
(any page), create (either call or the user-id parse), info, add and save —
and every successful run prints a JSON object and exits zero; the exceptions
are the unsupported-search-type and save-artist paths, which print an object
holding only an error message and exit zero. -/
theorem non_configure_failure_panics (remote : Remote)
    (query playlist_id_str : String) (item_type : ItemType) (limit : Nat)
    (name : String) (publicFlag : Bool) (description : Option String)
    (track_strs ids : List String) (pages : Nat → Page SimplifiedPlaylist) :
    -- search
    (remote.search = .error () →
      (cmd_search remote query item_type limit).2 = .panic) ∧
    (∀ r, remote.search = .ok r →
      ∃ j, (cmd_search remote query item_type limit).2 = .output j) ∧
    -- playlist list: a remote error at any page index panics the loop
    (∀ k fuel, k < fuel →
      (∀ i, i < k → ∃ p,
        remote.current_user_playlists_manual 50 (50 * i) = .ok p ∧
        p.next ≠ none) →
      remote.current_user_playlists_manual 50 (50 * k) = .error () →
      ∃ tr, cmd_playlist_list remote fuel = some (tr, .panic)) ∧
    ((∀ lim off, remote.current_user_playlists_manual lim off = .ok (pages off)) →
      ∀ hex : ∃ k, (pages (50 * k)).next = none,
      ∃ tr j, cmd_playlist_list remote (Nat.find hex + 1) =
        some (tr, .output j)) ∧
    -- playlist create
    (remote.current_user = .error () →
      (cmd_playlist_create remote name publicFlag description).2 = .panic) ∧
    (∀ user, remote.current_user = .ok user → from_id user.id = none →
      (cmd_playlist_create remote name publicFlag description).2 = .panic) ∧
    (∀ user user_id, remote.current_user = .ok user →
      from_id user.id = some user_id →
      remote.user_playlist_create = .error () →
      (cmd_playlist_create remote name publicFlag description).2 = .panic) ∧
    (∀ user user_id pl, remote.current_user = .ok user →
      from_id user.id = some user_id →
      remote.user_playlist_create = .ok pl →
      (cmd_playlist_create remote name publicFlag description).2 =
        .output (createOutput pl)) ∧
    -- playlist info
    (from_id_or_uri "playlist" playlist_id_str = none →
      (cmd_playlist_info remote playlist_id_str).2 = .panic) ∧
    (∀ playlist_id, from_id_or_uri "playlist" playlist_id_str = some playlist_id →
      remote.playlist = .error () →
      (cmd_playlist_info remote playlist_id_str).2 = .panic) ∧
    (∀ playlist_id p, from_id_or_uri "playlist" playlist_id_str = some playlist_id →
      remote.playlist = .ok p →
      ∃ j, (cmd_playlist_info remote playlist_id_str).2 = .output j) ∧
    -- playlist add
    (from_id_or_uri "playlist" playlist_id_str = none →
      (cmd_playlist_add remote playlist_id_str track_strs).2 = .panic) ∧
    (∀ playlist_id, from_id_or_uri "playlist" playlist_id_str = some playlist_id →
      mapOrNone (from_id_or_uri "track") track_strs = none →
      (cmd_playlist_add remote playlist_id_str track_strs).2 = .panic) ∧
    (∀ playlist_id l, from_id_or_uri "playlist" playlist_id_str = some playlist_id →
      mapOrNone (from_id_or_uri "track") track_strs = some l →
      remote.playlist_add_items = .error () →
      (cmd_playlist_add remote playlist_id_str track_strs).2 = .panic) ∧
    (∀ playlist_id l res, from_id_or_uri "playlist" playlist_id_str = some playlist_id →
      mapOrNone (from_id_or_uri "track") track_strs = some l →
      remote.playlist_add_items = .ok res →
      ∃ j, (cmd_playlist_add remote playlist_id_str track_strs).2 = .output j) ∧
    -- save tracks
    (mapOrNone (from_id_or_uri "track") ids = none →
      (cmd_save remote .track ids).2 = .panic) ∧
    (∀ l, mapOrNone (from_id_or_uri "track") ids = some l →
      remote.current_user_saved_tracks_add = .error () →
      (cmd_save remote .track ids).2 = .panic) ∧
    (∀ l, mapOrNone (from_id_or_uri "track") ids = some l →
      remote.current_user_saved_tracks_add = .ok () →
      (cmd_save remote .track ids).2 = .output (saveOutput "track" ids)) ∧
    -- save albums
    (mapOrNone (from_id_or_uri "album") ids = none →
      (cmd_save remote .album ids).2 = .panic) ∧
    (∀ l, mapOrNone (from_id_or_uri "album") ids = some l →
      remote.current_user_saved_albums_add = .error () →
      (cmd_save remote .album ids).2 = .panic) ∧
    (∀ l, mapOrNone (from_id_or_uri "album") ids = some l →
      remote.current_user_saved_albums_add = .ok () →
      (cmd_save remote .album ids).2 = .output (saveOutput "album" ids)) ∧
    -- save playlists: the per-id loop panics at its first parse or follow
    -- failure, and prints on full success
    (∀ pre t rest, ids = pre ++ t :: rest →
      (∀ s ∈ pre, ∃ pid, from_id_or_uri "playlist" s = some pid ∧
        remote.playlist_follow pid = .ok ()) →
      (from_id_or_uri "playlist" t = none ∨
        ∃ pid, from_id_or_uri "playlist" t = some pid ∧
          remote.playlist_follow pid = .error ()) →
      (cmd_save remote .playlist ids).2 = .panic) ∧
    ((∀ t ∈ ids, ∃ pid, from_id_or_uri "playlist" t = some pid ∧
        remote.playlist_follow pid = .ok ()) →
      (cmd_save remote .playlist ids).2 = .output (saveOutput "playlist" ids)) ∧
    -- save artists: the error-object exception path (exit zero, no call)
    ((cmd_save remote .artist ids).2 = .output (.obj [("error",
      .str "saving artists is not supported; use 'follow' instead")])) := by
  refine ⟨?_, ?_, ?_, ?_, ?_, ?_, ?_, ?_, ?_, ?_, ?_, ?_, ?_, ?_, ?_, ?_, ?_,
    ?_, ?_, ?_, ?_, ?_, ?_, ?_⟩
  · intro h
    simp [cmd_search, h]
  · intro r h
    rcases r with page | page | page | page | _ | _
    · exact ⟨searchOutput query "track" page.total
        (page.items.map renderSearchTrack), by simp [cmd_search, h]⟩
    · exact ⟨searchOutput query "album" page.total
        (page.items.map renderSearchAlbum), by simp [cmd_search, h]⟩
    · exact ⟨searchOutput query "artist" page.total
        (page.items.map renderSearchArtist), by simp [cmd_search, h]⟩
    · exact ⟨searchOutput query "playlist" page.total
        (page.items.map renderSearchPlaylist), by simp [cmd_search, h]⟩
    · exact ⟨.obj [("error", .str "unsupported search type")],
        by simp [cmd_search, h]⟩
    · exact ⟨.obj [("error", .str "unsupported search type")],
        by simp [cmd_search, h]⟩
  · intro k fuel hk hpre herr
    obtain ⟨tr, htr⟩ := cmd_playlist_list_go_panics remote k fuel 0 [] [] hk
      (by simpa using hpre) (by simpa using herr)
    exact ⟨tr, htr⟩
  · intro hok hex
    exact ⟨(List.range (Nat.find hex + 1)).map
        (fun i => Call.current_user_playlists_manual 50 (50 * i)),
      playlistListOutput (listItemsFrom pages 0 (Nat.find hex)),
      cmd_playlist_list_run remote pages hok hex⟩
  · intro h
    simp [cmd_playlist_create, h]
  · intro user hu hid
    simp [cmd_playlist_create, hu, hid]
  · intro user user_id hu hid h
    simp [cmd_playlist_create, hu, hid, h]
  · intro user user_id pl hu hid hr
    simp [cmd_playlist_create, hu, hid, hr]
  · intro h
    simp [cmd_playlist_info, h]
  · intro playlist_id hp h
    simp [cmd_playlist_info, hp, h]
  · intro playlist_id p hp hr
    exact ⟨infoOutput p (p.tracks.items.filterMap
        (fun item => item.track.map renderPlayable)),
      by simp [cmd_playlist_info, hp, hr]⟩
  · intro h
    simp [cmd_playlist_add, h]
  · intro playlist_id hp hm
    simp [cmd_playlist_add, hp, hm]
  · intro playlist_id l hp hl hr
    simp [cmd_playlist_add, hp, hl, hr]
  · intro playlist_id l res hp hl hr
    exact ⟨addOutput playlist_id_str track_strs.length res.snapshot_id,
      by simp [cmd_playlist_add, hp, hl, hr]⟩
  · intro h
    simp [cmd_save, h]
  · intro l hl hr
    simp [cmd_save, hl, hr]
  · intro l hl hr
    simp [cmd_save, hl, hr]
  · intro h
    simp [cmd_save, h]
  · intro l hl hr
    simp [cmd_save, hl, hr]
  · intro l hl hr
    simp [cmd_save, hl, hr]
  · intro pre t rest heq hpre hfail
    subst heq
    obtain ⟨tr, htr⟩ := save_follow_go_fails remote pre t rest [] hpre hfail
    simp [cmd_save, htr]
  · intro hall
    obtain ⟨calls, hgo, _⟩ := save_follow_go_ok remote ids [] hall
    simp [cmd_save, hgo]
  · rfl

/-- C2 amended witness: a failing search panics, an unparsable playlist id
panics, a failing follow during save panics, and the save-artist exception
prints the error object (exit zero). -/
theorem non_configure_failure_panics_witness :
    (cmd_search failRemote "q" .track 20).2 = .panic ∧
    (cmd_playlist_info failRemote "not a valid id").2 = .panic ∧
    (cmd_save failRemote .playlist ["37i9dQZF1DXcBWIGoYBM5M"]).2 = .panic ∧
    (cmd_save failRemote .artist ["x"]).2 = .output (.obj [("error",
      .str "saving artists is not supported; use 'follow' instead")]) := by
  obtain ⟨a1, _a2, _b1, _b2, _c1, _c2, _c3, _c4, d1, _d2, _d3, _e1, _e2, _e3,
    _e4, _f1, _f2, _f3, _g1, _g2, _g3, h1, _h2, i1⟩ :=
    non_configure_failure_panics failRemote "q" "not a valid id" .track 20
      "n" false none [] ["x"] (fun _ => ⟨[], 0, none⟩)
  refine ⟨a1 rfl, d1 (by decide), ?_, i1⟩
  have h2 := (non_configure_failure_panics failRemote "q" "not a valid id"
    .track 20 "n" false none [] ["37i9dQZF1DXcBWIGoYBM5M"]
    (fun _ => ⟨[], 0, none⟩)).2.2.2.2.2.2.2.2.2.2.2.2.2.2.2.2.2.2.2.2.2.1
  exact h2 [] "37i9dQZF1DXcBWIGoYBM5M" [] rfl (by simp)
    (Or.inr ⟨"37i9dQZF1DXcBWIGoYBM5M", by decide, rfl⟩)

end Spores
